import Mathlib

/-!
Shallow embedding of `src/fuelrun/update_price.py` (class `FuelPriceUpdate`).

Conventions of the embedding:
* Python exceptions are modelled with `Except PyError`; a method that can raise
  returns `Except PyError _` and an uncaught exception is an `.error` result.
* JSON scalars are `Scalar`; dataframe cells are `Cell` (a cell can also hold a
  nested JSON object, as happens when a station field other than `location`
  holds a dict).
* pandas dataframes are `DataFrame`: a column-name list plus a list of rows.
  Every dataframe this program builds carries the default integer range index
  0,1,2,..., so the index is kept implicit and `to_csv`/`read_csv` materialise
  it positionally.
* The filesystem is `FS`: a list of existing directories plus an association
  list from file paths to CSV contents.  The program only probes directory
  paths with `os.path.exists`, so existence is directory existence.
* Python string comparison (used by `sorted`) is lexicographic on code points;
  it is modelled by `strLe`/`lexLe` below.
-/

/-- A JSON scalar value (null / integer / string). -/
inductive Scalar
| snull
| sint (n : Int)
| sstr (s : String)
deriving DecidableEq, Repr

/-- A pandas cell value: a scalar, or a nested JSON object (a Python dict
stored as an object cell). `cnull` doubles as NaN. -/
inductive Cell
| cnull
| cint (n : Int)
| cstr (s : String)
| cdict (entries : List (String × Scalar))
deriving DecidableEq, Repr

/-- A field of a raw station record: either a scalar or a nested object
(the `location` field is an object of coordinates). -/
inductive SField
| fscalar (v : Scalar)
| fobj (entries : List (String × Scalar))
deriving DecidableEq, Repr

/-- The JSON body returned by the prices endpoint, as the program consumes it:
a `prices` array of flat records and a `stations` array of records whose
fields may be scalars or one nested object. -/
structure RawResp where
  prices : List (List (String × Scalar))
  stations : List (List (String × SField))
deriving DecidableEq, Repr

/-- The Python exceptions this program can raise. -/
inductive PyError
| keyError
| attributeError
| typeError
| valueError
| nameError
| fileNotFoundError
| indexError
deriving DecidableEq, Repr

/-- Injection of a JSON scalar into a dataframe cell. -/
def scalarCell : Scalar → Cell
| .snull => .cnull
| .sint n => .cint n
| .sstr s => .cstr s

/-- Lexicographic comparison of character lists by code point, the order
Python string comparison uses. `lexLe l m` is `l ≤ m`. -/
def lexLe : List Char → List Char → Bool
| [], _ => true
| _ :: _, [] => false
| a :: as, b :: bs =>
  (a.toNat < b.toNat) || ((a.toNat == b.toNat) && lexLe as bs)

/-- Python string order: `strLe s t` is `s <= t`. -/
def strLe (s t : String) : Bool := lexLe s.data t.data

/-- Insert a string into a descending-sorted list, keeping it descending. -/
def insertDesc (x : String) : List String → List String
| [] => [x]
| y :: ys => if strLe x y then y :: insertDesc x ys else x :: y :: ys

/-- Descending sort of a list of strings: the model of
`sorted(..., reverse=True)` in `read_record` (line 162). -/
def sortDesc : List String → List String
| [] => []
| x :: xs => insertDesc x (sortDesc xs)

/-- Numeric value of a list of decimal digit characters. -/
def digitsVal (l : List Char) : Nat :=
  l.foldl (fun acc c => acc * 10 + (c.toNat - 48)) 0

/-- Parse a string as a Python/pandas integer (optional sign, then decimal
digits); `none` when the string is not an integer literal. -/
def parseIntStr (s : String) : Option Int :=
  match s.data with
  | [] => none
  | '-' :: ds =>
    if !ds.isEmpty && ds.all Char.isDigit then some (-(digitsVal ds : Int)) else none
  | ds =>
    if ds.all Char.isDigit then some ((digitsVal ds : Int)) else none

/-- A pandas dataframe: column names and rows of cells.  The default integer
range index is implicit. -/
structure DataFrame where
  columns : List String
  rows : List (List Cell)
deriving DecidableEq, Repr

/-- Cell of a row at a column position (missing positions read as NaN). -/
def cellAt (row : List Cell) (i : Nat) : Cell := row.getD i Cell.cnull

/-- Position of a column name in a column list. -/
def colIdx (cols : List String) (c : String) : Option Nat := cols.findIdx? (· = c)

/-- The join-key value of a row of `df` under column `c` (the program only
joins on columns that exist; a missing column reads as NaN). -/
def keyOf (df : DataFrame) (c : String) (row : List Cell) : Cell :=
  match colIdx df.columns c with
  | some i => cellAt row i
  | none => Cell.cnull

/-- A row of NaNs of the given width. -/
def nullRow (n : Nat) : List Cell := List.replicate n Cell.cnull

/-- Model of `pd.merge(left, right, how='right', left_on, right_on)`
(lines 118-122): every row of the right frame, paired with each matching row
of the left frame (NaN-padded when no left row matches).  The two frames of
this program have disjoint column names, so pandas suffixing never fires and
the merged columns are left columns followed by right columns. -/
def mergeRight (left right : DataFrame) (lOn rOn : String) : DataFrame :=
  { columns := left.columns ++ right.columns,
    rows := right.rows.flatMap (fun rr =>
      if (left.rows.filter (fun lr => keyOf left lOn lr == keyOf right rOn rr)).isEmpty
      then [nullRow left.columns.length ++ rr]
      else (left.rows.filter
        (fun lr => keyOf left lOn lr == keyOf right rOn rr)).map (· ++ rr)) }

/-- Column list of `pd.DataFrame.from_dict` on a list of records: the union
of the record keys in order of first appearance. -/
def recordKeys (recs : List (List (String × Scalar))) : List String :=
  recs.foldl (fun acc r => acc ++ (r.map Prod.fst).filter (fun k => !(acc.contains k))) []

/-- Model of `pd.DataFrame.from_dict` on a list of flat records (line 90):
one row per record, NaN for keys a record lacks. -/
def dfFromRecords (recs : List (List (String × Scalar))) : DataFrame :=
  let cols := recordKeys recs
  { columns := cols,
    rows := recs.map (fun r => cols.map (fun c =>
      match List.lookup c r with
      | some v => scalarCell v
      | none => Cell.cnull)) }

/-- A CSV file: a header line and data lines, each a list of textual fields. -/
structure Csv where
  header : List String
  rows : List (List String)
deriving DecidableEq, Repr

/-- Textual form a cell takes in a CSV written by `to_csv`.  Nested-object
cells never occur in the frames this program exports; their serialisation is
out of scope and marked by a placeholder. -/
def cellToCsv : Cell → String
| .cnull => ""
| .cint n => toString n
| .cstr s => s
| .cdict _ => "<dict>"

/-- Model of `DataFrame.to_csv(path, index=True)` (lines 131-133): the header
gains a leading empty field for the unnamed index, and every data line is
prefixed with its range-index position. -/
def to_csv (df : DataFrame) : Csv :=
  { header := "" :: df.columns,
    rows := df.rows.enum.map (fun p => toString p.1 :: p.2.map cellToCsv) }

/-- How `pd.read_csv` types a textual field: empty reads as NaN, integer
literals read as integers, anything else stays a string. -/
def parseCsvCell (s : String) : Cell :=
  if s = "" then .cnull
  else
    match parseIntStr s with
    | some n => .cint n
    | none => .cstr s

/-- Model of `pd.read_csv(path, index_col=False)` (lines 168-172): no column
is used as the index, and an empty header field at position `i` is renamed
`Unnamed: i`. -/
def read_csv (c : Csv) : DataFrame :=
  { columns := c.header.enum.map (fun p =>
      if p.2 = "" then "Unnamed: " ++ toString p.1 else p.2),
    rows := c.rows.map (fun r => r.map parseCsvCell) }

/-- The filesystem: existing directories and file contents. -/
structure FS where
  dirs : List String
  files : List (String × Csv)
deriving DecidableEq, Repr

/-- Model of `os.path.exists` on the directory paths the program probes. -/
def pathExists (fs : FS) (p : String) : Bool := fs.dirs.contains p

/-- Model of `os.mkdir`. -/
def mkdir (fs : FS) (p : String) : FS := { fs with dirs := p :: fs.dirs }

/-- Write (or overwrite) a file. -/
def writeFile (fs : FS) (p : String) (c : Csv) : FS :=
  { fs with files := (p, c) :: fs.files.filter (fun q => !(q.1 == p)) }

/-- Read a file, `none` when it does not exist. -/
def readFile (fs : FS) (p : String) : Option Csv := List.lookup p fs.files

/-- The immediate-child name of the `data` directory carried by a path, if
any: `data/<name>` with `<name>` slash-free. -/
def dataChild (p : String) : Option String :=
  match p.data with
  | 'd' :: 'a' :: 't' :: 'a' :: '/' :: rest =>
    if !rest.isEmpty && rest.all (fun c => !(c == '/')) then some (String.mk rest) else none
  | _ => none

/-- Model of `os.listdir('data')` over the directory part of the filesystem
(the program's `data` directory holds only snapshot subdirectories). -/
def listdirData (fs : FS) : List String := fs.dirs.filterMap dataChild

/-- The entry `read_record` selects: `sorted(os.listdir('data'), reverse=True)[0]`
(lines 162-163), i.e. the head of the descending sort, when there is one. -/
def latestEntry (fs : FS) : Option String := (sortDesc (listdirData fs)).head?

/-- Attribute slot for `working_df`: the constructor never creates it, so it
is either absent (reading raises AttributeError) or holds a dataframe. -/
inductive WorkingAttr
| absent
| df (d : DataFrame)
deriving DecidableEq, Repr

/-- The state of a `FuelPriceUpdate` object.  Fields other than `working_df`
are always present as attributes (the constructor binds them to `None`,
modelled as `none`); `working_df` is a `WorkingAttr` because `__init__` never
binds it. -/
structure FPUState where
  is_update : Bool
  authorization : String
  access_token : Option Scalar
  raw_response : Option RawResp
  stations_df : Option DataFrame
  prices_df : Option DataFrame
  combined_df : Option DataFrame
  working_df : WorkingAttr
deriving DecidableEq, Repr

/-- Replace the `combined_df` attribute (used to state that no method reads
or writes it). -/
def setCombined (s : FPUState) (c : Option DataFrame) : FPUState :=
  { s with combined_df := c }

/-- The names bound at top level by the module `update_price.py`: its imports
and its two definitions.  `CONTENT_TYPE`, `API_KEY` and `CUR_TIME`, which
`update_data` references, are not among them. -/
def moduleGlobals : List String :=
  ["os", "datetime", "json", "requests", "pd", "px", "load_dotenv",
   "BASE64_AUTH", "FuelPriceUpdate"]

/-- The message printed by the bare `except` of `update_data` (line 82). -/
def fetchFailMsg : String := "Failed to fetch fuel prices, please try again later."

/-- Outcome of the guarded block of `update_data` (lines 78-80): the HTTP GET
returns a body that decodes, or `requests.request` raises, or `.json()`
raises. -/
inductive FetchOutcome
| success (body : RawResp)
| raiseRequest
| raiseJson
deriving DecidableEq, Repr

namespace FuelPriceUpdate

/-- Model of `__init__` (lines 29-36): every dataframe attribute is bound to
`None`, `combined_df` included; `working_df` is never bound. -/
def init (authorization : String) (is_update : Bool) : FPUState :=
  { is_update := is_update,
    authorization := authorization,
    access_token := none,
    raw_response := none,
    stations_df := none,
    prices_df := none,
    combined_df := none,
    working_df := .absent }

/-- The HTTP request `get_token` sends (lines 46-55): fixed OAuth URL and
query string, and headers whose `authorization` value is the object's
`authorization` attribute. -/
structure TokenRequest where
  url : String
  params : List (String × String)
  headers : List (String × String)
deriving DecidableEq, Repr

/-- The token request built from the current state (lines 46-53). -/
def tokenRequest (s : FPUState) : TokenRequest :=
  { url := "https://api.onegov.nsw.gov.au/oauth/client_credential/accesstoken",
    params := [("grant_type", "client_credentials")],
    headers := [("content-type", "application/json"),
                ("authorization", s.authorization)] }

/-- Model of `get_token` (lines 38-57).  `transport` performs the HTTP call
and JSON decode and receives exactly the request the method builds; the
method then subscripts the decoded body with `'access_token'`, raising
KeyError when the key is missing.  There is no `except` clause: every error
propagates. -/
def get_token (s : FPUState)
    (transport : TokenRequest → Except PyError (List (String × Scalar))) :
    Except PyError FPUState :=
  match transport (tokenRequest s) with
  | .error e => .error e
  | .ok resp =>
    match List.lookup "access_token" resp with
    | some v => .ok { s with access_token := some v }
    | none => .error .keyError

/-- The `try` block of `update_data` (lines 78-83): on success the decoded
body is stored in `raw_response`; if the request or the decode raises, the
bare `except` prints a message and the state is left untouched.  The second
component collects printed messages. -/
def tryFetch (s : FPUState) (o : FetchOutcome) : FPUState × List String :=
  match o with
  | .success body => ({ s with raw_response := some body }, [])
  | .raiseRequest => (s, [fetchFailMsg])
  | .raiseJson => (s, [fetchFailMsg])

/-- Model of `update_data` (lines 59-83).  Building the headers dict
(lines 71-77) evaluates the global names `CONTENT_TYPE`, `API_KEY` and
`CUR_TIME` before the `try` is entered; a name not bound in the module's
globals raises NameError there, uncaught.  Only then does the guarded fetch
run. -/
def update_data (globalsDefined : List String) (s : FPUState) (o : FetchOutcome) :
    Except PyError (FPUState × List String) :=
  if !(globalsDefined.contains "CONTENT_TYPE") then .error .nameError
  else if !(globalsDefined.contains "API_KEY") then .error .nameError
  else if !(globalsDefined.contains "CUR_TIME") then .error .nameError
  else .ok (tryFetch s o)

/-- Model of `create_price_list` (lines 85-90): subscripting a `None`
response raises TypeError; otherwise the `prices` records become a dataframe. -/
def create_price_list (s : FPUState) : Except PyError FPUState :=
  match s.raw_response with
  | none => .error .typeError
  | some resp => .ok { s with prices_df := some (dfFromRecords resp.prices) }

/-- The column list of line 108. -/
def stationColumns : List String :=
  ["brandid", "stationid", "brand", "code", "name",
   "address", "latitude", "longitude", "state"]

/-- The inner loop of `create_station_list` (lines 100-107): each field
contributes its value, except `location`, whose entries are flattened by
iterating `.items()` (raising AttributeError when the value is not a dict). -/
def stationCells : List (String × SField) → Except PyError (List Cell)
| [] => .ok []
| (col, v) :: rest =>
  match
    (if col = "location" then
      match v with
      | .fobj entries => Except.ok (entries.map (fun e => scalarCell e.2))
      | .fscalar _ => Except.error PyError.attributeError
    else
      match v with
      | .fscalar sv => Except.ok [scalarCell sv]
      | .fobj entries => Except.ok [Cell.cdict entries]) with
  | .error e => .error e
  | .ok hd =>
    match stationCells rest with
    | .error e => .error e
    | .ok tl => .ok (hd ++ tl)

/-- Sequencing of a fallible map, as Python's loops sequence exceptions. -/
def mapE (f : α → Except ε β) : List α → Except ε (List β)
| [] => .ok []
| x :: xs =>
  match f x with
  | .error e => .error e
  | .ok y =>
    match mapE f xs with
    | .error e => .error e
    | .ok ys => .ok (y :: ys)

/-- Line 110, applied to one row: `df['code'].astype('int64')` converts the
cell in the `code` column (position 3) to an integer, raising when the cell
is not an integer, an integer literal string being accepted. -/
def castInt64 : Cell → Except PyError Cell
| .cint n => .ok (.cint n)
| .cstr s =>
  match parseIntStr s with
  | some n => .ok (.cint n)
  | none => .error .valueError
| .cnull => .error .valueError
| .cdict _ => .error .typeError

/-- The `astype('int64')` cast of line 110 on one row. -/
def castRow (row : List Cell) : Except PyError (List Cell) :=
  match castInt64 (cellAt row 3) with
  | .error e => .error e
  | .ok c => .ok (row.set 3 c)

/-- Model of `create_station_list` (lines 93-111): flatten each raw station
record into a row, build the 9-column frame (`pd.DataFrame` raises ValueError
when a row width disagrees with the column list), then coerce the `code`
column to int64. -/
def create_station_list (s : FPUState) : Except PyError FPUState :=
  match s.raw_response with
  | none => .error .typeError
  | some resp =>
    match mapE stationCells resp.stations with
    | .error e => .error e
    | .ok rows =>
      if rows.all (fun r => r.length == 9) then
        match mapE castRow rows with
        | .error e => .error e
        | .ok rows2 =>
          .ok { s with stations_df := some { columns := stationColumns, rows := rows2 } }
      else .error .valueError

/-- Model of `build_working_df` (lines 113-122): the right join of the
station frame onto the price frame on `code` = `stationcode`; merging a
`None` frame raises TypeError. -/
def build_working_df (s : FPUState) : Except PyError FPUState :=
  match s.stations_df, s.prices_df with
  | some st, some pr =>
    .ok { s with working_df := .df (mergeRight st pr "code" "stationcode") }
  | _, _ => .error .typeError

/-- Model of `save_as_csv` (lines 123-135): writes `stations.csv`,
`prices.csv` and `combined.csv` under `path`, in that order, with
`index=True`.  Calling `.to_csv` on a `None` frame, or reading the unbound
`working_df` attribute, raises AttributeError at that point; the error value
carries the filesystem as already written to. -/
def save_as_csv (s : FPUState) (path : String) (fs : FS) : Except (PyError × FS) FS :=
  match s.stations_df with
  | none => .error (.attributeError, fs)
  | some st =>
    let fs1 := writeFile fs (path ++ "/stations.csv") (to_csv st)
    match s.prices_df with
    | none => .error (.attributeError, fs1)
    | some pr =>
      let fs2 := writeFile fs1 (path ++ "/prices.csv") (to_csv pr)
      match s.working_df with
      | .absent => .error (.attributeError, fs2)
      | .df w => .ok (writeFile fs2 (path ++ "/combined.csv") (to_csv w))

/-- Model of `check_folder` (lines 137-142): create `path` unless it exists,
then save. -/
def check_folder (s : FPUState) (path : String) (fs : FS) : Except (PyError × FS) FS :=
  if pathExists fs path then save_as_csv s path fs
  else save_as_csv s path (mkdir fs path)

/-- Model of `export` (lines 144-156); named `export'` because `export` is a
Lean keyword.  `today_date` stands for `datetime.datetime.now().strftime('%Y%m%d')`;
the target is `data/backup_<today_date>`, with `data` created when missing. -/
def export' (s : FPUState) (fs : FS) (today_date : String) : Except (PyError × FS) FS :=
  if pathExists fs "data" then check_folder s ("data/backup_" ++ today_date) fs
  else check_folder s ("data/backup_" ++ today_date) (mkdir fs "data")

/-- Model of `read_record` (lines 158-174): list the `data` directory
(FileNotFoundError when it does not exist), take the lexicographically
greatest entry (`sorted(..., reverse=True)[0]`, IndexError when the listing
is empty), and reload the three CSVs from it with `index_col=False`.  There
is no `except` clause: every error propagates. -/
def read_record (s : FPUState) (fs : FS) : Except PyError FPUState :=
  if pathExists fs "data" then
    match latestEntry fs with
    | none => .error .indexError
    | some latest =>
      match readFile fs (("data/" ++ latest) ++ "/prices.csv") with
      | none => .error .fileNotFoundError
      | some pc =>
        match readFile fs (("data/" ++ latest) ++ "/stations.csv") with
        | none => .error .fileNotFoundError
        | some sc =>
          match readFile fs (("data/" ++ latest) ++ "/combined.csv") with
          | none => .error .fileNotFoundError
          | some cc =>
            .ok { s with prices_df := some (read_csv pc),
                         stations_df := some (read_csv sc),
                         working_df := .df (read_csv cc) }
  else .error .fileNotFoundError

end FuelPriceUpdate

/-- Model of `os.environ[k]`: KeyError when the variable is unset. -/
def osEnvironGet (env : String → Option String) (k : String) : Except PyError String :=
  match env k with
  | some v => .ok v
  | none => .error .keyError

/-- The module-level binding of line 13: `BASE64_AUTH = os.environ['BASE64_AUTH']`. -/
def moduleBASE64_AUTH (env : String → Option String) : Except PyError String :=
  osEnvironGet env "BASE64_AUTH"

/-- Modelled from the spec: the entry point that constructs `FuelPriceUpdate`
is not part of `update_price.py` (the module binds `BASE64_AUTH` but never
uses it).  Per the spec, "Environment variable `BASE64_AUTH` supplies the
authorization header value", so the entry point passes the module constant
`BASE64_AUTH` as the `authorization` argument. -/
def mainInit (env : String → Option String) (u : Bool) : Except PyError FPUState :=
  match moduleBASE64_AUTH env with
  | .error e => .error e
  | .ok a => .ok (FuelPriceUpdate.init a u)

deriving instance DecidableEq for Except

/-- The filesystem produced by a `save_as_csv` call: the three CSV files
written under `path` in source order (stations, prices, combined). -/
def savedFS (fs : FS) (path : String) (st pr w : DataFrame) : FS :=
  writeFile
    (writeFile
      (writeFile fs (path ++ "/stations.csv") (to_csv st))
      (path ++ "/prices.csv") (to_csv pr))
    (path ++ "/combined.csv") (to_csv w)

/-! Concrete sample data used by counterexamples and witnesses. -/

/-- A one-row, one-column station table. -/
def exStations : DataFrame := ⟨["code"], [[Cell.cint 3]]⟩

/-- A one-row, one-column price table. -/
def exPrices : DataFrame := ⟨["stationcode"], [[Cell.cint 3]]⟩

/-- The combined table joining `exStations` onto `exPrices`. -/
def exWorking : DataFrame := mergeRight exStations exPrices "code" "stationcode"

/-- An object state holding the three sample tables. -/
def exState : FPUState :=
  ⟨false, "auth", none, none, some exStations, some exPrices, none, .df exWorking⟩

/-- A filesystem with the `data` directory and one snapshot directory. -/
def exFS : FS := ⟨["data/backup_20240101", "data"], []⟩

/-- The filesystem after `save_as_csv exState "data/backup_20240101" exFS`. -/
def exSavedFS : FS :=
  ⟨["data/backup_20240101", "data"],
   [("data/backup_20240101/combined.csv", ⟨["", "code", "stationcode"], [["0", "3", "3"]]⟩),
    ("data/backup_20240101/prices.csv", ⟨["", "stationcode"], [["0", "3"]]⟩),
    ("data/backup_20240101/stations.csv", ⟨["", "code"], [["0", "3"]]⟩)]⟩

/-- The object state after `read_record exState exSavedFS`: every reloaded
table has gained a leading `Unnamed: 0` column holding the saved index. -/
def exReloaded : FPUState :=
  ⟨false, "auth", none, none,
   some ⟨["Unnamed: 0", "code"], [[Cell.cint 0, Cell.cint 3]]⟩,
   some ⟨["Unnamed: 0", "stationcode"], [[Cell.cint 0, Cell.cint 3]]⟩,
   none,
   .df ⟨["Unnamed: 0", "code", "stationcode"], [[Cell.cint 0, Cell.cint 3, Cell.cint 3]]⟩⟩

/-- A raw station record with the field layout the NSW API delivers. -/
def exStationRec : List (String × SField) :=
  [("brandid", .fscalar (.sstr "B1")),
   ("stationid", .fscalar (.sstr "S1")),
   ("brand", .fscalar (.sstr "Shell")),
   ("code", .fscalar (.sstr "123")),
   ("name", .fscalar (.sstr "Station One")),
   ("address", .fscalar (.sstr "1 Road")),
   ("location", .fobj [("latitude", .sstr "-33.8"), ("longitude", .sstr "151.2")]),
   ("state", .fscalar (.sstr "NSW"))]

/-- A raw API response with one price record and one station record. -/
def exRaw : RawResp :=
  { prices := [[("stationcode", .sint 123), ("fueltype", .sstr "E10"), ("price", .sint 180)]],
    stations := [exStationRec] }

/-- An object state after a successful fetch of `exRaw`. -/
def exStationState : FPUState :=
  ⟨true, "auth", none, some exRaw, none, none, none, .absent⟩

/-- A station table with a duplicated station code. -/
def dupStations : DataFrame := ⟨["code"], [[Cell.cint 1], [Cell.cint 1]]⟩

/-- A price table with one row whose code matches both duplicated stations. -/
def onePrice : DataFrame := ⟨["stationcode"], [[Cell.cint 1]]⟩

/-- An object state holding the duplicate-code tables. -/
def dupState : FPUState :=
  ⟨false, "auth", none, none, some dupStations, some onePrice, none, .absent⟩

/-- A sample CSV file as stored in a snapshot directory. -/
def exCsvA : Csv := ⟨["", "x"], [["0", "1"]]⟩

/-- The object state `create_station_list` produces from `exStationState`:
the station frame with the `code` cell coerced from the string "123" to the
integer 123. -/
def exStationOut : FPUState :=
  ⟨true, "auth", none, some exRaw,
   some ⟨FuelPriceUpdate.stationColumns,
     [[Cell.cstr "B1", Cell.cstr "S1", Cell.cstr "Shell", Cell.cint 123,
       Cell.cstr "Station One", Cell.cstr "1 Road", Cell.cstr "-33.8",
       Cell.cstr "151.2", Cell.cstr "NSW"]]⟩,
   none, none, .absent⟩

/-- An environment in which only `BASE64_AUTH` is set. -/
def envB64 : String → Option String :=
  fun k => if k = "BASE64_AUTH" then some "secret" else none

/-- A filesystem holding two snapshot directories and the three CSVs of the
later one. -/
def exFS6 : FS :=
  ⟨["data", "data/backup_20240101", "data/backup_20240102"],
   [("data/backup_20240102/prices.csv", exCsvA),
    ("data/backup_20240102/stations.csv", exCsvA),
    ("data/backup_20240102/combined.csv", exCsvA)]⟩

/-! Order lemmas for the Python string comparison. -/

theorem lexLe_refl : ∀ l, lexLe l l = true
| [] => rfl
| a :: as => by simp [lexLe, lexLe_refl as]

theorem lexLe_total : ∀ l m, lexLe l m = true ∨ lexLe m l = true
| [], _ => Or.inl rfl
| _ :: _, [] => Or.inr rfl
| a :: as, b :: bs => by
  simp only [lexLe, Bool.or_eq_true, Bool.and_eq_true, decide_eq_true_eq, beq_iff_eq]
  rcases Nat.lt_trichotomy a.toNat b.toNat with h | h | h
  · exact Or.inl (Or.inl h)
  · rcases lexLe_total as bs with ih | ih
    · exact Or.inl (Or.inr ⟨h, ih⟩)
    · exact Or.inr (Or.inr ⟨h.symm, ih⟩)
  · exact Or.inr (Or.inl h)

theorem lexLe_trans : ∀ l m n, lexLe l m = true → lexLe m n = true → lexLe l n = true
| [], _, _ => fun _ _ => rfl
| _ :: _, [], _ => fun h _ => by simp [lexLe] at h
| _ :: _, _ :: _, [] => fun _ h => by simp [lexLe] at h
| a :: as, b :: bs, c :: cs => fun h1 h2 => by
  simp only [lexLe, Bool.or_eq_true, Bool.and_eq_true, decide_eq_true_eq,
    beq_iff_eq] at h1 h2 ⊢
  rcases h1 with h1 | ⟨h1e, h1r⟩
  · rcases h2 with h2 | ⟨h2e, _⟩
    · exact Or.inl (Nat.lt_trans h1 h2)
    · exact Or.inl (h2e ▸ h1)
  · rcases h2 with h2 | ⟨h2e, h2r⟩
    · exact Or.inl (h1e ▸ h2)
    · exact Or.inr ⟨h1e.trans h2e, lexLe_trans as bs cs h1r h2r⟩

theorem strLe_refl (s : String) : strLe s s = true := lexLe_refl s.data

theorem strLe_total (s t : String) : strLe s t = true ∨ strLe t s = true :=
  lexLe_total s.data t.data

theorem strLe_trans {s t u : String} (h1 : strLe s t = true) (h2 : strLe t u = true) :
    strLe s u = true := lexLe_trans s.data t.data u.data h1 h2

/-! The head of the descending sort is a maximal member. -/

theorem length_insertDesc (x : String) : ∀ l, (insertDesc x l).length = l.length + 1
| [] => rfl
| y :: ys => by
  simp only [insertDesc]
  split
  · simp [length_insertDesc x ys]
  · simp

theorem sortDesc_eq_nil : ∀ {l : List String}, sortDesc l = [] → l = []
| [], _ => rfl
| x :: xs, h => by
  have hl := congrArg List.length h
  simp [sortDesc, length_insertDesc] at hl

theorem mem_insertDesc {a x : String} : ∀ {l}, a ∈ insertDesc x l ↔ (a = x ∨ a ∈ l)
| [] => by simp [insertDesc]
| y :: ys => by
  simp only [insertDesc]
  split
  · simp only [List.mem_cons, mem_insertDesc (l := ys)]
    tauto
  · simp only [List.mem_cons]

theorem sortDesc_subset : ∀ (l : List String), ∀ a ∈ sortDesc l, a ∈ l
| [] => by simp [sortDesc]
| x :: xs => by
  intro a ha
  simp only [sortDesc] at ha
  rcases mem_insertDesc.mp ha with h | h
  · simp [h]
  · exact List.mem_cons_of_mem _ (sortDesc_subset xs a h)

theorem sortDesc_head_ub :
    ∀ (l : List String) (h : String), (sortDesc l).head? = some h →
      ∀ a ∈ l, strLe a h = true
| [] => by intro h hh; simp [sortDesc] at hh
| x :: xs => by
  intro h hh a ha
  simp only [sortDesc] at hh
  cases hm : sortDesc xs with
  | nil =>
    rw [hm] at hh
    simp only [insertDesc, List.head?] at hh
    have hx : x = h := by simpa using hh
    have hxs : xs = [] := sortDesc_eq_nil hm
    subst hxs
    rcases List.mem_singleton.mp ha with rfl
    exact hx ▸ strLe_refl a
  | cons y ys =>
    rw [hm] at hh
    simp only [insertDesc] at hh
    split at hh
    case isTrue hxy =>
      have hy : y = h := by simpa using hh
      subst hy
      rcases List.mem_cons.mp ha with rfl | hmem
      · exact hxy
      · exact sortDesc_head_ub xs y (by rw [hm]; rfl) a hmem
    case isFalse hxy =>
      have hx : x = h := by simpa using hh
      subst hx
      rcases List.mem_cons.mp ha with rfl | hmem
      · exact strLe_refl a
      · have hay : strLe a y = true := sortDesc_head_ub xs y (by rw [hm]; rfl) a hmem
        have hyx : strLe y x = true := by
          rcases strLe_total x y with h2 | h2
          · exact absurd h2 (by simpa using hxy)
          · exact h2
        exact strLe_trans hay hyx

theorem sortDesc_head_mem {l : List String} {h : String}
    (hh : (sortDesc l).head? = some h) : h ∈ l := by
  cases hsd : sortDesc l with
  | nil => rw [hsd] at hh; cases hh
  | cons y ys =>
    rw [hsd] at hh
    have : y = h := by simpa using hh
    subst this
    exact sortDesc_subset l y (hsd ▸ List.mem_cons_self y ys)

/-! Lemmas about the fallible map, the int64 cast, and row access. -/

theorem mapE_ok_forall {α β ε : Type} {f : α → Except ε β} :
    ∀ {l : List α} {l' : List β}, FuelPriceUpdate.mapE f l = .ok l' →
      ∀ b ∈ l', ∃ a ∈ l, f a = .ok b
| [], l' => by
  intro h b hb
  simp only [FuelPriceUpdate.mapE] at h
  cases h
  cases hb
| x :: xs, l' => by
  intro h b hb
  simp only [FuelPriceUpdate.mapE] at h
  cases hfx : f x with
  | error e => rw [hfx] at h; cases h
  | ok y =>
    rw [hfx] at h
    cases hxs : FuelPriceUpdate.mapE f xs with
    | error e => rw [hxs] at h; cases h
    | ok ys =>
      rw [hxs] at h
      cases h
      rcases List.mem_cons.mp hb with rfl | hmem
      · exact ⟨x, List.mem_cons_self x xs, hfx⟩
      · obtain ⟨a, ha, hfa⟩ := mapE_ok_forall hxs b hmem
        exact ⟨a, List.mem_cons_of_mem x ha, hfa⟩

theorem castInt64_ok {v w : Cell} (h : FuelPriceUpdate.castInt64 v = .ok w) :
    ∃ n, w = Cell.cint n := by
  cases v with
  | cint n => exact ⟨n, by simpa [FuelPriceUpdate.castInt64] using h.symm⟩
  | cstr s =>
    simp only [FuelPriceUpdate.castInt64] at h
    cases hp : parseIntStr s with
    | none => rw [hp] at h; cases h
    | some n => rw [hp] at h; cases h; exact ⟨n, rfl⟩
  | cnull => cases h
  | cdict entries => cases h

theorem cellAt_set3 : ∀ (r : List Cell), 3 < r.length → ∀ c, cellAt (r.set 3 c) 3 = c := by
  intro r hr c
  rcases r with _ | ⟨a, _ | ⟨b, _ | ⟨d, _ | ⟨e, rest⟩⟩⟩⟩ <;> first | rfl | simp at hr

theorem flatMap_length_one {α β : Type} {f : α → List β} :
    ∀ l : List α, (∀ a ∈ l, (f a).length = 1) → (l.flatMap f).length = l.length
| [] => by simp
| x :: xs => fun h => by
  simp only [List.flatMap_cons, List.length_append, List.length_cons]
  rw [h x (List.mem_cons_self x xs),
    flatMap_length_one xs (fun a ha => h a (List.mem_cons_of_mem x ha))]
  omega

/-! Lemmas about strings and the filesystem model. -/

theorem strAppend_left_cancel {a s t : String} (h : a ++ s = a ++ t) : s = t := by
  have h2 := congrArg String.data h
  simp only [String.data_append] at h2
  exact String.ext (List.append_cancel_left h2)

theorem backupPath_ne_data (d : String) : ("data/backup_" ++ d) ≠ "data" := by
  intro h
  have h2 := congrArg (fun s : String => s.data.length) h
  simp [String.data_append] at h2

theorem lookup_filter_ne {q p : String} (h : q ≠ p) :
    ∀ l : List (String × Csv),
      List.lookup q (l.filter (fun e => !(e.1 == p))) = List.lookup q l
| [] => rfl
| e :: l => by
  obtain ⟨k, v⟩ := e
  by_cases hkp : k = p
  · subst hkp
    have hq : (q == k) = false := beq_eq_false_iff_ne.mpr h
    simp [List.filter, List.lookup, hq, lookup_filter_ne h l]
  · have hk : (k == p) = false := beq_eq_false_iff_ne.mpr hkp
    by_cases hqk : q = k
    · subst hqk
      simp [List.filter, List.lookup, hk]
    · have hq : (q == k) = false := beq_eq_false_iff_ne.mpr hqk
      simp [List.filter, List.lookup, hk, hq, lookup_filter_ne h l]

theorem readFile_writeFile_same (fs : FS) (p : String) (c : Csv) :
    readFile (writeFile fs p c) p = some c := by
  simp [readFile, writeFile, List.lookup]

theorem readFile_writeFile_other (fs : FS) (p : String) (c : Csv) {q : String}
    (h : q ≠ p) : readFile (writeFile fs p c) q = readFile fs q := by
  have hq : (q == p) = false := beq_eq_false_iff_ne.mpr h
  simp [readFile, writeFile, List.lookup, hq, lookup_filter_ne h fs.files]

theorem pathExists_mkdir_self (fs : FS) (p : String) :
    pathExists (mkdir fs p) p = true := by
  simp [pathExists, mkdir, List.contains_cons]

theorem pathExists_mkdir_ne (fs : FS) {p q : String} (h : q ≠ p) :
    pathExists (mkdir fs p) q = pathExists fs q := by
  simp [pathExists, mkdir, List.contains_cons, beq_eq_false_iff_ne.mpr h, h]

theorem pathExists_mkdir_of (fs : FS) (p : String) {q : String}
    (h : pathExists fs q = true) : pathExists (mkdir fs p) q = true := by
  have hm : q ∈ fs.dirs := List.mem_of_elem_eq_true h
  exact List.elem_eq_true_of_mem (List.mem_cons_of_mem p hm)
theorem create_station_list_ok {s s' : FPUState}
    (h : FuelPriceUpdate.create_station_list s = .ok s') :
    ∃ resp rows rows2, s.raw_response = some resp
      ∧ FuelPriceUpdate.mapE FuelPriceUpdate.stationCells resp.stations = .ok rows
      ∧ rows.all (fun r => r.length == 9) = true
      ∧ FuelPriceUpdate.mapE FuelPriceUpdate.castRow rows = .ok rows2
      ∧ s' = { s with stations_df := some ⟨FuelPriceUpdate.stationColumns, rows2⟩ } := by
  unfold FuelPriceUpdate.create_station_list at h
  split at h
  · cases h
  · rename_i resp hresp
    split at h
    · cases h
    · rename_i rows hrows
      split at h
      · rename_i hall
        split at h
        · cases h
        · rename_i rows2 hrows2
          injection h with h
          exact ⟨resp, rows, rows2, hresp, hrows, hall, hrows2, h.symm⟩
      · cases h

/-! CSV round-trip lemmas. -/

theorem map_parse_write :
    ∀ row : List Cell, (∀ v ∈ row, parseCsvCell (cellToCsv v) = v) →
      (row.map cellToCsv).map parseCsvCell = row
| [] => fun _ => rfl
| v :: vs => fun h => by
  simp only [List.map_cons]
  rw [h v (List.mem_cons_self v vs),
    map_parse_write vs (fun x hx => h x (List.mem_cons_of_mem v hx))]

theorem rename_cols :
    ∀ (cols : List String) (k : Nat), "" ∉ cols →
      (List.enumFrom k cols).map
        (fun p => if p.2 = "" then "Unnamed: " ++ toString p.1 else p.2) = cols
| [], _ => fun _ => rfl
| c :: cs, k => fun h => by
  simp only [List.enumFrom, List.map_cons]
  rw [if_neg (fun hc => h (by rw [hc]; exact List.mem_cons_self _ _)),
    rename_cols cs (k + 1) (fun hc => h (List.mem_cons_of_mem c hc))]

theorem rows_roundtrip :
    ∀ (rows : List (List Cell)) (k : Nat),
      (∀ row ∈ rows, ∀ v ∈ row, parseCsvCell (cellToCsv v) = v) →
      (List.enumFrom k rows).map
        (fun p => (p.2.map cellToCsv).map parseCsvCell) = rows
| [], _ => fun _ => rfl
| row :: rest, k => fun h => by
  simp only [List.enumFrom, List.map_cons]
  rw [map_parse_write row (h row (List.mem_cons_self row rest)),
    rows_roundtrip rest (k + 1) (fun r hr => h r (List.mem_cons_of_mem row hr))]

/-! Lemmas about `save_as_csv` and the filesystem it produces. -/

theorem append_suffix_ne (a : String) {s t : String} (h : s ≠ t) :
    a ++ s ≠ a ++ t := fun hh => h (strAppend_left_cancel hh)

theorem save_as_csv_ok {s : FPUState} {st pr w : DataFrame}
    (h1 : s.stations_df = some st) (h2 : s.prices_df = some pr)
    (h3 : s.working_df = .df w) (path : String) (fs : FS) :
    FuelPriceUpdate.save_as_csv s path fs = .ok (savedFS fs path st pr w) := by
  simp [FuelPriceUpdate.save_as_csv, h1, h2, h3, savedFS]

theorem savedFS_stations (fs : FS) (path : String) (st pr w : DataFrame) :
    readFile (savedFS fs path st pr w) (path ++ "/stations.csv") = some (to_csv st) := by
  unfold savedFS
  rw [readFile_writeFile_other _ _ _ (append_suffix_ne path (by decide)),
    readFile_writeFile_other _ _ _ (append_suffix_ne path (by decide)),
    readFile_writeFile_same]

theorem savedFS_prices (fs : FS) (path : String) (st pr w : DataFrame) :
    readFile (savedFS fs path st pr w) (path ++ "/prices.csv") = some (to_csv pr) := by
  unfold savedFS
  rw [readFile_writeFile_other _ _ _ (append_suffix_ne path (by decide)),
    readFile_writeFile_same]

theorem savedFS_combined (fs : FS) (path : String) (st pr w : DataFrame) :
    readFile (savedFS fs path st pr w) (path ++ "/combined.csv") = some (to_csv w) := by
  unfold savedFS
  rw [readFile_writeFile_same]

theorem savedFS_other (fs : FS) (path : String) (st pr w : DataFrame) {q : String}
    (hq1 : q ≠ path ++ "/stations.csv") (hq2 : q ≠ path ++ "/prices.csv")
    (hq3 : q ≠ path ++ "/combined.csv") :
    readFile (savedFS fs path st pr w) q = readFile fs q := by
  unfold savedFS
  rw [readFile_writeFile_other _ _ _ hq3, readFile_writeFile_other _ _ _ hq2,
    readFile_writeFile_other _ _ _ hq1]

theorem savedFS_dirs (fs : FS) (path : String) (st pr w : DataFrame) :
    (savedFS fs path st pr w).dirs = fs.dirs := rfl

theorem readFile_mkdir (fs : FS) (p q : String) :
    readFile (mkdir fs p) q = readFile fs q := rfl

/-! Lemmas for the `combined_df` lifecycle: no method after `__init__`
reads or writes the attribute. -/

theorem setCombined_stations (s : FPUState) (c : Option DataFrame) :
    (setCombined s c).stations_df = s.stations_df := rfl

theorem setCombined_prices (s : FPUState) (c : Option DataFrame) :
    (setCombined s c).prices_df = s.prices_df := rfl

theorem setCombined_working (s : FPUState) (c : Option DataFrame) :
    (setCombined s c).working_df = s.working_df := rfl

theorem setCombined_raw (s : FPUState) (c : Option DataFrame) :
    (setCombined s c).raw_response = s.raw_response := rfl

theorem get_token_writes (s : FPUState)
    (t : FuelPriceUpdate.TokenRequest → Except PyError (List (String × Scalar))) :
    (FuelPriceUpdate.get_token s t).map FPUState.combined_df
      = (FuelPriceUpdate.get_token s t).map (fun _ => s.combined_df) := by
  unfold FuelPriceUpdate.get_token
  split
  · rfl
  · split
    · rfl
    · rfl

theorem get_token_reads (s : FPUState) (c : Option DataFrame)
    (t : FuelPriceUpdate.TokenRequest → Except PyError (List (String × Scalar))) :
    FuelPriceUpdate.get_token (setCombined s c) t
      = (FuelPriceUpdate.get_token s t).map (fun x => setCombined x c) := by
  unfold FuelPriceUpdate.get_token
  rw [show FuelPriceUpdate.tokenRequest (setCombined s c)
    = FuelPriceUpdate.tokenRequest s from rfl]
  split
  · rfl
  · split
    · rfl
    · rfl

theorem update_data_writes (g : List String) (s : FPUState) (o : FetchOutcome) :
    (FuelPriceUpdate.update_data g s o).map (fun p => p.1.combined_df)
      = (FuelPriceUpdate.update_data g s o).map (fun _ => s.combined_df) := by
  unfold FuelPriceUpdate.update_data
  cases h1 : g.contains "CONTENT_TYPE" <;> cases h2 : g.contains "API_KEY" <;>
    cases h3 : g.contains "CUR_TIME" <;>
    first
    | rfl
    | (cases o <;> rfl)

theorem update_data_reads (g : List String) (s : FPUState) (c : Option DataFrame)
    (o : FetchOutcome) :
    FuelPriceUpdate.update_data g (setCombined s c) o
      = (FuelPriceUpdate.update_data g s o).map (fun p => (setCombined p.1 c, p.2)) := by
  unfold FuelPriceUpdate.update_data
  cases h1 : g.contains "CONTENT_TYPE" <;> cases h2 : g.contains "API_KEY" <;>
    cases h3 : g.contains "CUR_TIME" <;>
    first
    | rfl
    | (cases o <;> rfl)

theorem create_price_list_writes (s : FPUState) :
    (FuelPriceUpdate.create_price_list s).map (fun x => x.combined_df)
      = (FuelPriceUpdate.create_price_list s).map (fun _ => s.combined_df) := by
  unfold FuelPriceUpdate.create_price_list
  split
  · rfl
  · rfl

theorem create_price_list_reads (s : FPUState) (c : Option DataFrame) :
    FuelPriceUpdate.create_price_list (setCombined s c)
      = (FuelPriceUpdate.create_price_list s).map (fun x => setCombined x c) := by
  unfold FuelPriceUpdate.create_price_list
  rw [setCombined_raw]
  split
  · rfl
  · rfl

theorem create_station_list_writes (s : FPUState) :
    (FuelPriceUpdate.create_station_list s).map (fun x => x.combined_df)
      = (FuelPriceUpdate.create_station_list s).map (fun _ => s.combined_df) := by
  unfold FuelPriceUpdate.create_station_list
  split
  · rfl
  · split
    · rfl
    · split
      · split
        · rfl
        · rfl
      · rfl

theorem create_station_list_reads (s : FPUState) (c : Option DataFrame) :
    FuelPriceUpdate.create_station_list (setCombined s c)
      = (FuelPriceUpdate.create_station_list s).map (fun x => setCombined x c) := by
  unfold FuelPriceUpdate.create_station_list
  rw [setCombined_raw]
  split
  · rfl
  · split
    · rfl
    · split
      · split
        · rfl
        · rfl
      · rfl

theorem build_working_df_writes (s : FPUState) :
    (FuelPriceUpdate.build_working_df s).map (fun x => x.combined_df)
      = (FuelPriceUpdate.build_working_df s).map (fun _ => s.combined_df) := by
  unfold FuelPriceUpdate.build_working_df
  split
  · rfl
  · rfl

theorem build_working_df_reads (s : FPUState) (c : Option DataFrame) :
    FuelPriceUpdate.build_working_df (setCombined s c)
      = (FuelPriceUpdate.build_working_df s).map (fun x => setCombined x c) := by
  unfold FuelPriceUpdate.build_working_df
  rw [setCombined_stations, setCombined_prices]
  split
  · rfl
  · rfl

theorem save_as_csv_reads (s : FPUState) (c : Option DataFrame) (path : String) (fs : FS) :
    FuelPriceUpdate.save_as_csv (setCombined s c) path fs
      = FuelPriceUpdate.save_as_csv s path fs := by
  unfold FuelPriceUpdate.save_as_csv
  rw [setCombined_stations, setCombined_prices, setCombined_working]

theorem check_folder_reads (s : FPUState) (c : Option DataFrame) (path : String) (fs : FS) :
    FuelPriceUpdate.check_folder (setCombined s c) path fs
      = FuelPriceUpdate.check_folder s path fs := by
  unfold FuelPriceUpdate.check_folder
  split
  · exact save_as_csv_reads s c path fs
  · exact save_as_csv_reads s c path (mkdir fs path)

theorem export_reads (s : FPUState) (c : Option DataFrame) (fs : FS) (date : String) :
    FuelPriceUpdate.export' (setCombined s c) fs date
      = FuelPriceUpdate.export' s fs date := by
  unfold FuelPriceUpdate.export'
  split
  · exact check_folder_reads s c _ fs
  · exact check_folder_reads s c _ (mkdir fs "data")

theorem read_record_writes (s : FPUState) (fs : FS) :
    (FuelPriceUpdate.read_record s fs).map (fun x => x.combined_df)
      = (FuelPriceUpdate.read_record s fs).map (fun _ => s.combined_df) := by
  unfold FuelPriceUpdate.read_record
  split
  · split
    · rfl
    · split
      · rfl
      · split
        · rfl
        · split
          · rfl
          · rfl
  · rfl

theorem read_record_reads (s : FPUState) (c : Option DataFrame) (fs : FS) :
    FuelPriceUpdate.read_record (setCombined s c) fs
      = (FuelPriceUpdate.read_record s fs).map (fun x => setCombined x c) := by
  unfold FuelPriceUpdate.read_record
  split
  · split
    · rfl
    · split
      · rfl
      · split
        · rfl
        · split
          · rfl
          · rfl
  · rfl

/-! The claims. -/

/-- C1 counterexample: saving the sample tables with `save_as_csv` and
reloading them with `read_record` from the same snapshot directory does not
return equivalent tables — every reloaded table has an extra leading
`Unnamed: 0` column (the saved index), so its columns and rows differ from
the saved ones. -/
theorem C1_roundtrip_counterexample :
    FuelPriceUpdate.save_as_csv exState "data/backup_20240101" exFS = .ok exSavedFS
    ∧ FuelPriceUpdate.read_record exState exSavedFS = .ok exReloaded
    ∧ exReloaded.stations_df ≠ exState.stations_df
    ∧ exReloaded.prices_df ≠ exState.prices_df
    ∧ exReloaded.working_df ≠ exState.working_df := by decide

/-- C1 (amended): a table saved with `to_csv` (`index=True`) and reloaded
with `read_csv` (`index_col=False`) comes back as the saved table with one
extra leading `Unnamed: 0` column holding the saved row index: the reloaded
column list is `Unnamed: 0` followed by the saved columns, and dropping the
first cell of every reloaded row recovers exactly the saved rows.  The
hypotheses require the saved table to have no empty column name and only
cell values whose CSV text reads back as itself (pandas re-types fields, so
e.g. a string of digits would come back as an integer). -/
theorem C1_roundtrip_amended :
    ∀ df : DataFrame, "" ∉ df.columns →
    (∀ row ∈ df.rows, ∀ v ∈ row, parseCsvCell (cellToCsv v) = v) →
    (read_csv (to_csv df)).columns = "Unnamed: 0" :: df.columns
    ∧ (read_csv (to_csv df)).rows.map List.tail = df.rows := by
  intro df hc hr
  constructor
  · simp only [read_csv, to_csv]
    rw [show List.enum ("" :: df.columns) = (0, "") :: List.enumFrom 1 df.columns from rfl]
    simp only [List.map_cons]
    rw [rename_cols df.columns 1 hc]
    rfl
  · simp only [read_csv, to_csv, List.map_map]
    exact rows_roundtrip df.rows 0 hr

/-- C1 witness: the amended round-trip at the sample station table. -/
theorem C1_roundtrip_witness :
    (read_csv (to_csv exStations)).columns = "Unnamed: 0" :: exStations.columns
    ∧ (read_csv (to_csv exStations)).rows.map List.tail = exStations.rows :=
  C1_roundtrip_amended exStations (by decide) (by decide)

/-- C2: calling `update_data` with the module's actual global bindings raises
NameError on every call and for every fetch outcome, because the headers dict
references `CONTENT_TYPE` (and `API_KEY`, `CUR_TIME`), which the module never
defines, before the `try` guard is entered.  No failure is ever caught by the
bare `except`, contradicting the claim that the guard catches every failure
and the method returns normally. -/
theorem C2_update_data_nameerror :
    ∀ (s : FPUState) (o : FetchOutcome),
      FuelPriceUpdate.update_data moduleGlobals s o = .error .nameError :=
  fun _ _ => rfl

/-- C3 counterexample: with a duplicated station code, the right join
produced by `build_working_df` has more rows than the price table — two
duplicate stations matching one price row yield a two-row combined table. -/
theorem C3_rowcount_counterexample :
    FuelPriceUpdate.build_working_df dupState
      = .ok { dupState with
          working_df := .df (mergeRight dupStations onePrice "code" "stationcode") }
    ∧ (mergeRight dupStations onePrice "code" "stationcode").rows.length = 2
    ∧ onePrice.rows.length = 1
    ∧ (mergeRight dupStations onePrice "code" "stationcode").rows.length
        ≠ onePrice.rows.length := by decide

/-- C3 (amended): the combined table built by `build_working_df` has exactly
as many rows as the price table provided each price row matches at most one
station row on the join key (in particular when station codes are unique);
with duplicate matches the right join duplicates the price row. -/
theorem C3_rowcount_amended :
    ∀ (s : FPUState) (st pr : DataFrame),
      s.stations_df = some st → s.prices_df = some pr →
      (∀ rr ∈ pr.rows,
        (st.rows.filter
          (fun lr => keyOf st "code" lr == keyOf pr "stationcode" rr)).length ≤ 1) →
      FuelPriceUpdate.build_working_df s
        = .ok { s with working_df := .df (mergeRight st pr "code" "stationcode") }
      ∧ (mergeRight st pr "code" "stationcode").rows.length = pr.rows.length := by
  intro s st pr h1 h2 hu
  refine ⟨by simp [FuelPriceUpdate.build_working_df, h1, h2], ?_⟩
  simp only [mergeRight]
  apply flatMap_length_one
  intro rr hrr
  have hle := hu rr hrr
  cases hms : (st.rows.filter
      (fun lr => keyOf st "code" lr == keyOf pr "stationcode" rr)).isEmpty
  · have hne : st.rows.filter
        (fun lr => keyOf st "code" lr == keyOf pr "stationcode" rr) ≠ [] := by
      intro hnil
      rw [hnil] at hms
      cases hms
    have hpos : 0 < (st.rows.filter
        (fun lr => keyOf st "code" lr == keyOf pr "stationcode" rr)).length :=
      List.length_pos.mpr hne
    simp only [hms, Bool.false_eq_true, if_false, List.length_map]
    omega
  · simp only [hms, if_true, List.length_singleton]

/-- C3 witness: the amended row-count equality at the sample tables, whose
station codes are unique. -/
theorem C3_rowcount_witness :
    FuelPriceUpdate.build_working_df exState
      = .ok { exState with
          working_df := .df (mergeRight exStations exPrices "code" "stationcode") }
    ∧ (mergeRight exStations exPrices "code" "stationcode").rows.length
        = exPrices.rows.length :=
  C3_rowcount_amended exState exStations exPrices rfl rfl (by decide)

/-- C4: whenever `create_station_list` succeeds, the station frame it stores
has the fixed 9-column layout whose position 3 is `code`, and every cell of
the `code` column is an integer (the `astype('int64')` coercion); and
`build_working_df` then joins precisely on `code` = `stationcode`. -/
theorem C4_code_int64 :
    ∀ (s s' : FPUState), FuelPriceUpdate.create_station_list s = .ok s' →
      (∃ df, s'.stations_df = some df ∧ df.columns = FuelPriceUpdate.stationColumns
        ∧ ∀ row ∈ df.rows, ∃ n, cellAt row 3 = Cell.cint n)
      ∧ FuelPriceUpdate.stationColumns.get? 3 = some "code"
      ∧ (∀ (s2 : FPUState) (st pr : DataFrame), s2.stations_df = some st →
          s2.prices_df = some pr →
          FuelPriceUpdate.build_working_df s2
            = .ok { s2 with working_df := .df (mergeRight st pr "code" "stationcode") }) := by
  intro s s' h
  refine ⟨?_, rfl,
    fun s2 st pr hst hpr => by simp [FuelPriceUpdate.build_working_df, hst, hpr]⟩
  obtain ⟨resp, rows, rows2, hresp, hrows, hall, hrows2, hs'⟩ := create_station_list_ok h
  subst hs'
  refine ⟨_, rfl, rfl, ?_⟩
  intro row hrow
  obtain ⟨row0, hrow0, hcast⟩ := mapE_ok_forall hrows2 row hrow
  unfold FuelPriceUpdate.castRow at hcast
  split at hcast
  · cases hcast
  · rename_i cc hcget
    injection hcast with hcast
    subst hcast
    obtain ⟨n, hn⟩ := castInt64_ok hcget
    have hlen : row0.length = 9 := by
      have := List.all_eq_true.mp hall row0 hrow0
      simpa using this
    rw [cellAt_set3 row0 (by omega) cc, hn]
    exact ⟨n, rfl⟩

/-- C4 witness: the sample raw response, whose station code arrives as the
string "123", yields a station frame whose code cell is the integer 123. -/
theorem C4_code_int64_witness :
    FuelPriceUpdate.create_station_list exStationState = .ok exStationOut
    ∧ ((∃ df, exStationOut.stations_df = some df
          ∧ df.columns = FuelPriceUpdate.stationColumns
          ∧ ∀ row ∈ df.rows, ∃ n, cellAt row 3 = Cell.cint n)
      ∧ FuelPriceUpdate.stationColumns.get? 3 = some "code"
      ∧ (∀ (s2 : FPUState) (st pr : DataFrame), s2.stations_df = some st →
          s2.prices_df = some pr →
          FuelPriceUpdate.build_working_df s2
            = .ok { s2 with working_df := .df (mergeRight st pr "code" "stationcode") })) :=
  ⟨by decide, C4_code_int64 exStationState exStationOut (by decide)⟩

/-- Properties of the filesystem a completed save produces, relative to the
filesystem `fs` the export started from; `fsb` is `fs` with the directories
the export may have created. -/
theorem saved_props (fs fsb : FS) (path : String) (st pr w : DataFrame)
    (hfiles : fsb.files = fs.files)
    (hdata : pathExists fsb "data" = true)
    (hpath : pathExists fsb path = true)
    (hdirs : ∀ d ∈ fsb.dirs, d = "data" ∨ d = path ∨ d ∈ fs.dirs) :
    readFile (savedFS fsb path st pr w) (path ++ "/stations.csv") = some (to_csv st)
    ∧ readFile (savedFS fsb path st pr w) (path ++ "/prices.csv") = some (to_csv pr)
    ∧ readFile (savedFS fsb path st pr w) (path ++ "/combined.csv") = some (to_csv w)
    ∧ (∀ q, q ≠ path ++ "/stations.csv" → q ≠ path ++ "/prices.csv" →
        q ≠ path ++ "/combined.csv" →
        readFile (savedFS fsb path st pr w) q = readFile fs q)
    ∧ pathExists (savedFS fsb path st pr w) "data" = true
    ∧ pathExists (savedFS fsb path st pr w) path = true
    ∧ (∀ d ∈ (savedFS fsb path st pr w).dirs, d = "data" ∨ d = path ∨ d ∈ fs.dirs) := by
  refine ⟨savedFS_stations fsb path st pr w, savedFS_prices fsb path st pr w,
    savedFS_combined fsb path st pr w, ?_, hdata, hpath, hdirs⟩
  intro q hq1 hq2 hq3
  rw [savedFS_other fsb path st pr w hq1 hq2 hq3]
  show List.lookup q fsb.files = List.lookup q fs.files
  rw [hfiles]

/-- C5: for an object holding the three tables, `export'` succeeds and the
resulting filesystem holds exactly the three CSVs `stations.csv`,
`prices.csv` and `combined.csv` under `data/backup_<date>` (every other file
reads as before), with the `data` directory and the dated subdirectory
present, no other directory having been created. -/
theorem C5_export_files :
    ∀ (s : FPUState) (fs : FS) (date : String) (st pr w : DataFrame),
      s.stations_df = some st → s.prices_df = some pr → s.working_df = .df w →
      ∃ fs', FuelPriceUpdate.export' s fs date = .ok fs'
        ∧ readFile fs' (("data/backup_" ++ date) ++ "/stations.csv") = some (to_csv st)
        ∧ readFile fs' (("data/backup_" ++ date) ++ "/prices.csv") = some (to_csv pr)
        ∧ readFile fs' (("data/backup_" ++ date) ++ "/combined.csv") = some (to_csv w)
        ∧ (∀ q, q ≠ ("data/backup_" ++ date) ++ "/stations.csv" →
            q ≠ ("data/backup_" ++ date) ++ "/prices.csv" →
            q ≠ ("data/backup_" ++ date) ++ "/combined.csv" →
            readFile fs' q = readFile fs q)
        ∧ pathExists fs' "data" = true
        ∧ pathExists fs' ("data/backup_" ++ date) = true
        ∧ (∀ d ∈ fs'.dirs, d = "data" ∨ d = "data/backup_" ++ date ∨ d ∈ fs.dirs) := by
  intro s fs date st pr w h1 h2 h3
  cases hD : pathExists fs "data" with
  | true =>
    cases hP : pathExists fs ("data/backup_" ++ date) with
    | true =>
      refine ⟨savedFS fs ("data/backup_" ++ date) st pr w, ?_,
        saved_props fs fs ("data/backup_" ++ date) st pr w rfl hD hP
          (fun d hd => Or.inr (Or.inr hd))⟩
      simp [FuelPriceUpdate.export', FuelPriceUpdate.check_folder, hD, hP,
        save_as_csv_ok h1 h2 h3]
    | false =>
      refine ⟨savedFS (mkdir fs ("data/backup_" ++ date)) ("data/backup_" ++ date) st pr w, ?_,
        saved_props fs (mkdir fs ("data/backup_" ++ date)) ("data/backup_" ++ date) st pr w
          rfl (pathExists_mkdir_of fs _ hD) (pathExists_mkdir_self fs _) ?_⟩
      · simp [FuelPriceUpdate.export', FuelPriceUpdate.check_folder, hD, hP,
          save_as_csv_ok h1 h2 h3]
      · intro d hd
        rcases List.mem_cons.mp hd with rfl | hd2
        · exact Or.inr (Or.inl rfl)
        · exact Or.inr (Or.inr hd2)
  | false =>
    have hD2 : pathExists (mkdir fs "data") ("data/backup_" ++ date)
        = pathExists fs ("data/backup_" ++ date) :=
      pathExists_mkdir_ne fs (backupPath_ne_data date)
    cases hP : pathExists fs ("data/backup_" ++ date) with
    | true =>
      refine ⟨savedFS (mkdir fs "data") ("data/backup_" ++ date) st pr w, ?_,
        saved_props fs (mkdir fs "data") ("data/backup_" ++ date) st pr w rfl
          (pathExists_mkdir_self fs "data")
          (pathExists_mkdir_of fs _ hP) ?_⟩
      · simp [FuelPriceUpdate.export', FuelPriceUpdate.check_folder, hD, hD2, hP,
          save_as_csv_ok h1 h2 h3]
      · intro d hd
        rcases List.mem_cons.mp hd with rfl | hd2
        · exact Or.inl rfl
        · exact Or.inr (Or.inr hd2)
    | false =>
      refine ⟨savedFS (mkdir (mkdir fs "data") ("data/backup_" ++ date))
          ("data/backup_" ++ date) st pr w, ?_,
        saved_props fs (mkdir (mkdir fs "data") ("data/backup_" ++ date))
          ("data/backup_" ++ date) st pr w rfl
          (pathExists_mkdir_of (mkdir fs "data") _ (pathExists_mkdir_self fs "data"))
          (pathExists_mkdir_self (mkdir fs "data") _) ?_⟩
      · simp [FuelPriceUpdate.export', FuelPriceUpdate.check_folder, hD, hD2, hP,
          save_as_csv_ok h1 h2 h3]
      · intro d hd
        rcases List.mem_cons.mp hd with rfl | hd2
        · exact Or.inr (Or.inl rfl)
        · rcases List.mem_cons.mp hd2 with rfl | hd3
          · exact Or.inl rfl
          · exact Or.inr (Or.inr hd3)

/-- C5 witness: exporting the sample state into an empty filesystem on date
20240101 creates both directories and writes the three files. -/
theorem C5_export_files_witness :
    ∃ fs', FuelPriceUpdate.export' exState ⟨[], []⟩ "20240101" = .ok fs'
      ∧ readFile fs' (("data/backup_" ++ "20240101") ++ "/stations.csv")
          = some (to_csv exStations)
      ∧ readFile fs' (("data/backup_" ++ "20240101") ++ "/prices.csv")
          = some (to_csv exPrices)
      ∧ readFile fs' (("data/backup_" ++ "20240101") ++ "/combined.csv")
          = some (to_csv exWorking)
      ∧ (∀ q, q ≠ ("data/backup_" ++ "20240101") ++ "/stations.csv" →
          q ≠ ("data/backup_" ++ "20240101") ++ "/prices.csv" →
          q ≠ ("data/backup_" ++ "20240101") ++ "/combined.csv" →
          readFile fs' q = readFile (⟨[], []⟩ : FS) q)
      ∧ pathExists fs' "data" = true
      ∧ pathExists fs' ("data/backup_" ++ "20240101") = true
      ∧ (∀ d ∈ fs'.dirs, d = "data" ∨ d = "data/backup_" ++ "20240101"
          ∨ d ∈ (⟨[], []⟩ : FS).dirs) :=
  C5_export_files exState ⟨[], []⟩ "20240101" exStations exPrices exWorking rfl rfl rfl

/-- C6: whenever `read_record` selects an entry, that entry is a member of
the `data` listing and is greatest in the Python string order among all
entries (so when every entry is a `backup_<YYYYMMDD>` snapshot it is the
lexicographically last snapshot); and the three dataframes are then reloaded
from exactly that directory's CSVs. -/
theorem C6_latest_snapshot :
    ∀ (fs : FS) (s : FPUState) (latest : String), latestEntry fs = some latest →
      (latest ∈ listdirData fs ∧ ∀ e ∈ listdirData fs, strLe e latest = true)
      ∧ (∀ pc sc cc : Csv, pathExists fs "data" = true →
          readFile fs (("data/" ++ latest) ++ "/prices.csv") = some pc →
          readFile fs (("data/" ++ latest) ++ "/stations.csv") = some sc →
          readFile fs (("data/" ++ latest) ++ "/combined.csv") = some cc →
          FuelPriceUpdate.read_record s fs
            = .ok { s with prices_df := some (read_csv pc),
                           stations_df := some (read_csv sc),
                           working_df := .df (read_csv cc) }) := by
  intro fs s latest hl
  constructor
  · exact ⟨sortDesc_head_mem hl, fun e he => sortDesc_head_ub _ latest hl e he⟩
  · intro pc sc cc hD hpc hsc hcc
    simp [FuelPriceUpdate.read_record, hD, hl, hpc, hsc, hcc]

/-- C6 witness: with snapshots 20240101 and 20240102 on disk, `read_record`
selects `backup_20240102`, the greatest listing entry, and reloads its three
CSVs. -/
theorem C6_latest_snapshot_witness :
    ("backup_20240102" ∈ listdirData exFS6
      ∧ ∀ e ∈ listdirData exFS6, strLe e "backup_20240102" = true)
    ∧ FuelPriceUpdate.read_record exStationState exFS6
        = .ok { exStationState with
            prices_df := some (read_csv exCsvA),
            stations_df := some (read_csv exCsvA),
            working_df := .df (read_csv exCsvA) } :=
  ⟨(C6_latest_snapshot exFS6 exStationState "backup_20240102" (by decide)).1,
   (C6_latest_snapshot exFS6 exStationState "backup_20240102" (by decide)).2
     exCsvA exCsvA exCsvA (by decide) (by decide) (by decide) (by decide)⟩

/-- C7: whenever the environment variable `BASE64_AUTH` is set, the
spec-modelled entry point builds the object with it and the `authorization`
header of the token request `get_token` sends carries exactly that value. -/
theorem C7_auth_header :
    ∀ (env : String → Option String) (u : Bool) (v : String),
      env "BASE64_AUTH" = some v →
      ∃ s, mainInit env u = .ok s
        ∧ List.lookup "authorization" (FuelPriceUpdate.tokenRequest s).headers = some v := by
  intro env u v h
  refine ⟨FuelPriceUpdate.init v u, ?_, rfl⟩
  simp [mainInit, moduleBASE64_AUTH, osEnvironGet, h]

/-- C7 witness: with `BASE64_AUTH` set to "secret" the token request's
authorization header is "secret". -/
theorem C7_auth_header_witness :
    ∃ s, mainInit envB64 false = .ok s
      ∧ List.lookup "authorization" (FuelPriceUpdate.tokenRequest s).headers
          = some "secret" :=
  C7_auth_header envB64 false "secret" (by decide)

/-- C8: the failure modes outside the guarded fetch propagate uncaught: a
token response without the `access_token` key makes `get_token` raise
KeyError; a missing `data` directory makes `read_record` raise
FileNotFoundError; an empty `data` listing makes `read_record` raise
IndexError. -/
theorem C8_unhandled_failures :
    (∀ (s : FPUState)
        (t : FuelPriceUpdate.TokenRequest → Except PyError (List (String × Scalar)))
        (resp : List (String × Scalar)),
        t (FuelPriceUpdate.tokenRequest s) = .ok resp →
        List.lookup "access_token" resp = none →
        FuelPriceUpdate.get_token s t = .error .keyError)
    ∧ (∀ (s : FPUState) (fs : FS), pathExists fs "data" = false →
        FuelPriceUpdate.read_record s fs = .error .fileNotFoundError)
    ∧ (∀ (s : FPUState) (fs : FS), pathExists fs "data" = true → listdirData fs = [] →
        FuelPriceUpdate.read_record s fs = .error .indexError) := by
  refine ⟨?_, ?_, ?_⟩
  · intro s t resp ht hl
    simp [FuelPriceUpdate.get_token, ht, hl]
  · intro s fs hD
    simp [FuelPriceUpdate.read_record, hD]
  · intro s fs hD hempty
    have hle : latestEntry fs = none := by simp [latestEntry, hempty, sortDesc]
    simp [FuelPriceUpdate.read_record, hD, hle]

/-- C8 witness: the three uncaught failures at concrete inputs — an empty
token response, an empty filesystem, and a filesystem with an empty `data`
directory. -/
theorem C8_unhandled_failures_witness :
    FuelPriceUpdate.get_token exState (fun _ => .ok []) = .error .keyError
    ∧ FuelPriceUpdate.read_record exState ⟨[], []⟩ = .error .fileNotFoundError
    ∧ FuelPriceUpdate.read_record exState ⟨["data"], []⟩ = .error .indexError :=
  ⟨C8_unhandled_failures.1 exState (fun _ => .ok []) [] rfl rfl,
   C8_unhandled_failures.2.1 exState ⟨[], []⟩ rfl,
   C8_unhandled_failures.2.2 exState ⟨["data"], []⟩ (by decide) (by decide)⟩

/-- C9: the constructor leaves `working_df` absent while binding
`combined_df` (to None); on a freshly constructed object `save_as_csv` and
`export` raise AttributeError for every path and filesystem; and no method
after construction writes `combined_df` (a successful result carries the
caller's value unchanged) or reads it (every method's result is oblivious to
a replaced `combined_df`). -/
theorem C9_attribute_lifecycle :
    (∀ (a : String) (u : Bool),
        (FuelPriceUpdate.init a u).working_df = WorkingAttr.absent
        ∧ (FuelPriceUpdate.init a u).combined_df = none)
    ∧ (∀ (a : String) (u : Bool) (path : String) (fs : FS),
        FuelPriceUpdate.save_as_csv (FuelPriceUpdate.init a u) path fs
          = .error (.attributeError, fs))
    ∧ (∀ (a : String) (u : Bool) (fs : FS) (date : String), ∃ fs',
        FuelPriceUpdate.export' (FuelPriceUpdate.init a u) fs date
          = .error (.attributeError, fs'))
    ∧ (∀ (s : FPUState)
        (t : FuelPriceUpdate.TokenRequest → Except PyError (List (String × Scalar))),
        (FuelPriceUpdate.get_token s t).map FPUState.combined_df
          = (FuelPriceUpdate.get_token s t).map (fun _ => s.combined_df))
    ∧ (∀ (g : List String) (s : FPUState) (o : FetchOutcome),
        (FuelPriceUpdate.update_data g s o).map (fun p => p.1.combined_df)
          = (FuelPriceUpdate.update_data g s o).map (fun _ => s.combined_df))
    ∧ (∀ s : FPUState,
        (FuelPriceUpdate.create_price_list s).map (fun x => x.combined_df)
          = (FuelPriceUpdate.create_price_list s).map (fun _ => s.combined_df))
    ∧ (∀ s : FPUState,
        (FuelPriceUpdate.create_station_list s).map (fun x => x.combined_df)
          = (FuelPriceUpdate.create_station_list s).map (fun _ => s.combined_df))
    ∧ (∀ s : FPUState,
        (FuelPriceUpdate.build_working_df s).map (fun x => x.combined_df)
          = (FuelPriceUpdate.build_working_df s).map (fun _ => s.combined_df))
    ∧ (∀ (s : FPUState) (fs : FS),
        (FuelPriceUpdate.read_record s fs).map (fun x => x.combined_df)
          = (FuelPriceUpdate.read_record s fs).map (fun _ => s.combined_df))
    ∧ (∀ (s : FPUState) (c : Option DataFrame)
        (t : FuelPriceUpdate.TokenRequest → Except PyError (List (String × Scalar))),
        FuelPriceUpdate.get_token (setCombined s c) t
          = (FuelPriceUpdate.get_token s t).map (fun x => setCombined x c))
    ∧ (∀ (g : List String) (s : FPUState) (c : Option DataFrame) (o : FetchOutcome),
        FuelPriceUpdate.update_data g (setCombined s c) o
          = (FuelPriceUpdate.update_data g s o).map (fun p => (setCombined p.1 c, p.2)))
    ∧ (∀ (s : FPUState) (c : Option DataFrame),
        FuelPriceUpdate.create_price_list (setCombined s c)
          = (FuelPriceUpdate.create_price_list s).map (fun x => setCombined x c))
    ∧ (∀ (s : FPUState) (c : Option DataFrame),
        FuelPriceUpdate.create_station_list (setCombined s c)
          = (FuelPriceUpdate.create_station_list s).map (fun x => setCombined x c))
    ∧ (∀ (s : FPUState) (c : Option DataFrame),
        FuelPriceUpdate.build_working_df (setCombined s c)
          = (FuelPriceUpdate.build_working_df s).map (fun x => setCombined x c))
    ∧ (∀ (s : FPUState) (c : Option DataFrame) (path : String) (fs : FS),
        FuelPriceUpdate.save_as_csv (setCombined s c) path fs
          = FuelPriceUpdate.save_as_csv s path fs)
    ∧ (∀ (s : FPUState) (c : Option DataFrame) (path : String) (fs : FS),
        FuelPriceUpdate.check_folder (setCombined s c) path fs
          = FuelPriceUpdate.check_folder s path fs)
    ∧ (∀ (s : FPUState) (c : Option DataFrame) (fs : FS) (date : String),
        FuelPriceUpdate.export' (setCombined s c) fs date
          = FuelPriceUpdate.export' s fs date)
    ∧ (∀ (s : FPUState) (c : Option DataFrame) (fs : FS),
        FuelPriceUpdate.read_record (setCombined s c) fs
          = (FuelPriceUpdate.read_record s fs).map (fun x => setCombined x c)) := by
  refine ⟨fun a u => ⟨rfl, rfl⟩, fun a u path fs => rfl, ?_,
    get_token_writes, update_data_writes, create_price_list_writes,
    create_station_list_writes, build_working_df_writes, read_record_writes,
    get_token_reads, update_data_reads, create_price_list_reads,
    create_station_list_reads, build_working_df_reads, save_as_csv_reads,
    check_folder_reads, export_reads, read_record_reads⟩
  intro a u fs date
  unfold FuelPriceUpdate.export' FuelPriceUpdate.check_folder
  split
  · split
    · exact ⟨fs, rfl⟩
    · exact ⟨mkdir fs ("data/backup_" ++ date), rfl⟩
  · split
    · exact ⟨mkdir fs "data", rfl⟩
    · exact ⟨mkdir (mkdir fs "data") ("data/backup_" ++ date), rfl⟩

/-- C10: when the guarded block of `update_data` raises — whether in the
HTTP request or in the JSON decode — the object state is returned exactly as
it was: in particular `raw_response` keeps its previous value, and no other
field changes either. -/
theorem C10_fetch_atomicity :
    ∀ s : FPUState,
      FuelPriceUpdate.tryFetch s .raiseRequest = (s, [fetchFailMsg])
      ∧ FuelPriceUpdate.tryFetch s .raiseJson = (s, [fetchFailMsg])
      ∧ (FuelPriceUpdate.tryFetch s .raiseRequest).1.raw_response = s.raw_response
      ∧ (FuelPriceUpdate.tryFetch s .raiseJson).1.raw_response = s.raw_response :=
  fun _ => ⟨rfl, rfl, rfl, rfl⟩
